import Mathlib

/-!
Shallow embedding of the Moltbook-Wrapper PII-protection core
(`src/pii_detector.py` and the safe-posting layer of `src/moltbook.py`).

Python strings are modelled as `List Char` (ASCII fragment, which is all the
repository manipulates).  Python's `str.lower` is modelled by `Char.toLower`
mapped over the list, `str.strip()` by dropping the whitespace characters
Python strips from both ends, `str.lstrip('@')` by dropping leading `'@'`
characters, `in` by `isSubstr`, and `str.replace` by `pyReplace`
(left-to-right, non-overlapping, with CPython's empty-needle behaviour).

The six static registry regexes of `PII_PATTERNS` are embedded with a small
nondeterministic matcher combinator library (`RE`): a matcher maps a string
to the list of possible remainders after matching a prefix, listed in the
backtracking preference order of a greedy regex engine, so `reSearch` models
`pattern.search(text) is not None` and `reSub` models `pattern.sub(repl, text)`.
-/

abbrev Str := List Char

/-- Characters removed by Python's `str.strip()` (ASCII whitespace:
space, tab, newline, carriage return, vertical tab, form feed). -/
def pyIsSpace (c : Char) : Bool :=
  c.toNat = 32 || c.toNat = 9 || c.toNat = 10 || c.toNat = 13 || c.toNat = 11 || c.toNat = 12

/-- Python `str.lower()` (ASCII letters, which is all the repository uses). -/
def pyLower (s : Str) : Str := s.map Char.toLower

/-- Leading-whitespace removal, first half of Python `str.strip()`. -/
def stripLead (s : Str) : Str := s.dropWhile pyIsSpace

/-- Trailing-whitespace removal, second half of Python `str.strip()`. -/
def stripTrail (s : Str) : Str := (s.reverse.dropWhile pyIsSpace).reverse

/-- Python `str.strip()`. -/
def pyStrip (s : Str) : Str := stripTrail (stripLead s)

/-- Python `str.lstrip('@')`: remove every leading `'@'`. -/
def lstripAt (s : Str) : Str := s.dropWhile (fun c => c = '@')

/-- Python `re.sub(r'[^\d]', '', s)`: keep only the digits of `s`. -/
def digitsOnly (s : Str) : Str := s.filter Char.isDigit

/-- Python substring test `needle in hay` on strings. -/
def isSubstr (needle : Str) : Str → Bool
  | [] => needle.isEmpty
  | c :: t => List.isPrefixOf needle (c :: t) || isSubstr needle t

/-- Python `s.replace(old, new)` for an empty `old`: `new` is inserted
between every character and at both ends. -/
def pyInterleave (new : Str) : Str → Str
  | [] => new
  | c :: rest => new ++ c :: pyInterleave new rest

/-- Python `s.replace(old, new)` for a nonempty `old`: left-to-right,
non-overlapping replacement.  Structural recursion on fuel, which the
caller sets to the length of the scanned string: every step either emits
one character and recurses on the tail, or emits `new` and recurses on the
input minus the nonempty matched occurrence, so fuel `s.length` always
suffices and the fuel-exhausted branch is unreachable. -/
def pyReplaceAux (old new : Str) : Nat → Str → Str
  | 0, s => s
  | _ + 1, [] => []
  | fuel + 1, c :: rest =>
    if List.isPrefixOf old (c :: rest) then
      new ++ pyReplaceAux old new fuel (List.drop (old.length - 1) rest)
    else
      c :: pyReplaceAux old new fuel rest

/-- Python `s.replace(old, new)`. -/
def pyReplace (s old new : Str) : Str :=
  match old with
  | [] => pyInterleave new s
  | o :: ot => pyReplaceAux (o :: ot) new s.length s

/-!  Regex matcher combinators.  A matcher sends a string to the list of
remainders left after matching some prefix, in greedy backtracking order. -/

abbrev RE := Str → List Str

/-- Match the empty string. -/
def reEps : RE := fun s => [s]

/-- Match one character satisfying `p` (a regex character class). -/
def reCh (p : Char → Bool) : RE := fun s =>
  match s with
  | [] => []
  | c :: cs => if p c then [cs] else []

/-- Concatenation of two regexes. -/
def reSeq (a b : RE) : RE := fun s => (a s).flatMap b

/-- Greedy `a?`: prefer matching `a` over matching nothing. -/
def reOpt (a : RE) : RE := fun s => a s ++ [s]

/-- Exactly `n` repetitions of `a` (regex `a{n}`). -/
def reRep (a : RE) : Nat → RE
  | 0 => reEps
  | n + 1 => reSeq a (reRep a n)

/-- At most `n` repetitions of `a`, greedily preferring more. -/
def reUpto (a : RE) : Nat → RE
  | 0 => reEps
  | n + 1 => fun s => ((a s).flatMap (reUpto a n)) ++ [s]

/-- Greedy `a*`.  Every combinator used under a star consumes at least one
character, so the length of the remaining input bounds the repetitions. -/
def reStar (a : RE) : RE := fun s => reUpto a s.length s

/-- Greedy `a+`. -/
def rePlus (a : RE) : RE := reSeq a (reStar a)

/-- Regex `a{lo, lo+extra}`, greedy. -/
def reBetween (a : RE) (lo extra : Nat) : RE := reSeq (reRep a lo) (reUpto a extra)

/-- Python `pattern.search(text) is not None`: the pattern matches at some
start position (including the empty suffix at the end). -/
def reSearch (r : RE) : Str → Bool
  | [] => !(r []).isEmpty
  | c :: t => !(r (c :: t)).isEmpty || reSearch r t

/-- Python `pattern.sub(repl, text)`: scan left to right; at each position
replace the preferred (greedy) match and resume after it, otherwise keep the
character.  The registry patterns never match the empty string, so the
length-decrease guard is never taken on them; fuel `text.length` suffices
because every step consumes at least one input character. -/
def reSubAux (r : RE) (repl : Str) : Nat → Str → Str
  | 0, s => s
  | _ + 1, [] => []
  | fuel + 1, c :: rest =>
    match r (c :: rest) with
    | [] => c :: reSubAux r repl fuel rest
    | rem :: _ =>
      if rem.length < rest.length + 1 then repl ++ reSubAux r repl fuel rem
      else c :: reSubAux r repl fuel rest

/-- Python `pattern.sub(repl, text)`. -/
def reSub (r : RE) (repl : Str) (s : Str) : Str := reSubAux r repl s.length s

/-!  The six static registry patterns of `PII_PATTERNS`
(`src/pii_detector.py`, lines 23-41), one combinator term per regex. -/

/-- Character class `[a-zA-Z0-9._%+-]` of the email pattern. -/
def emailLocalChar (c : Char) : Bool :=
  c.isAlphanum || c = '.' || c = '_' || c = '%' || c = '+' || c = '-'

/-- Character class `[a-zA-Z0-9.-]` of the email pattern. -/
def emailDomainChar (c : Char) : Bool := c.isAlphanum || c = '.' || c = '-'

/-- Character class `[-.\s]` of the phone pattern. -/
def sepChar (c : Char) : Bool := c = '-' || c = '.' || pyIsSpace c

/-- Character class `[-\s]` of the credit-card pattern. -/
def dashSpaceChar (c : Char) : Bool := c = '-' || pyIsSpace c

/-- Character class "dash or forward slash" of the date pattern. -/
def slashDashChar (c : Char) : Bool := c = '-' || c = '/'

/-- Regex `\d`. -/
def digitRE : RE := reCh Char.isDigit

/-- Registry regex `[a-zA-Z0-9._%+-]+@[a-zA-Z0-9.-]+\.[a-zA-Z]{2,}`. -/
def emailRE : RE :=
  reSeq (rePlus (reCh emailLocalChar))
    (reSeq (reCh (fun c => c = '@'))
      (reSeq (rePlus (reCh emailDomainChar))
        (reSeq (reCh (fun c => c = '.'))
          (reSeq (reRep (reCh Char.isAlpha) 2) (reStar (reCh Char.isAlpha))))))

/-- Registry regex `(\+?1[-.\s]?)?(\(?\d{3}\)?[-.\s]?)?\d{3}[-.\s]?\d{4}`. -/
def phoneRE : RE :=
  reSeq
    (reOpt (reSeq (reOpt (reCh (fun c => c = '+')))
      (reSeq (reCh (fun c => c = '1')) (reOpt (reCh sepChar)))))
    (reSeq
      (reOpt (reSeq (reOpt (reCh (fun c => c = '(')))
        (reSeq (reRep digitRE 3)
          (reSeq (reOpt (reCh (fun c => c = ')'))) (reOpt (reCh sepChar))))))
      (reSeq (reRep digitRE 3) (reSeq (reOpt (reCh sepChar)) (reRep digitRE 4))))

/-- Registry regex `\d{3}-\d{2}-\d{4}`. -/
def ssnRE : RE :=
  reSeq (reRep digitRE 3)
    (reSeq (reCh (fun c => c = '-'))
      (reSeq (reRep digitRE 2) (reSeq (reCh (fun c => c = '-')) (reRep digitRE 4))))

/-- Registry regex `\d{4}[-\s]?\d{4}[-\s]?\d{4}[-\s]?\d{4}`. -/
def creditCardRE : RE :=
  reSeq (reRep digitRE 4)
    (reSeq (reOpt (reCh dashSpaceChar))
      (reSeq (reRep digitRE 4)
        (reSeq (reOpt (reCh dashSpaceChar))
          (reSeq (reRep digitRE 4)
            (reSeq (reOpt (reCh dashSpaceChar)) (reRep digitRE 4))))))

/-- Registry regex `\d{1,3}\.\d{1,3}\.\d{1,3}\.\d{1,3}`. -/
def ipAddressRE : RE :=
  reSeq (reBetween digitRE 1 2)
    (reSeq (reCh (fun c => c = '.'))
      (reSeq (reBetween digitRE 1 2)
        (reSeq (reCh (fun c => c = '.'))
          (reSeq (reBetween digitRE 1 2)
            (reSeq (reCh (fun c => c = '.')) (reBetween digitRE 1 2))))))

/-- Registry regex "date": one or two digits, a dash-or-slash separator, one
or two digits, a dash-or-slash separator, then two to four digits. -/
def dateRE : RE :=
  reSeq (reBetween digitRE 1 1)
    (reSeq (reCh slashDashChar)
      (reSeq (reBetween digitRE 1 1)
        (reSeq (reCh slashDashChar) (reBetween digitRE 2 2))))

/-- The static Pattern Registry `PII_PATTERNS`, in the source's
insertion (iteration) order. -/
def PII_PATTERNS : List (String × RE) :=
  [("email", emailRE), ("phone", phoneRE), ("ssn", ssnRE),
   ("credit_card", creditCardRE), ("ip_address", ipAddressRE), ("date", dateRE)]

/-!  The PII detector (`src/pii_detector.py`, class `PIIDetector`).

Python sets of normalized strings are modelled as duplicate-free lists:
`set.add` is `setAdd`, which inserts only when the value is absent.  The set
of compiled custom patterns is modelled by the list of their (deduplicated)
source strings together with an abstract `RegexEngine` standing for
`re.compile(pattern, re.IGNORECASE)`: `compile` returns `none` exactly when
`re.compile` raises `re.error`, and otherwise the compiled case-insensitive
matcher.  (CPython's `re.compile` is deterministic and cached, so equal
pattern sources yield the same pattern object; storing sources and
recompiling on use is observationally the same as storing the objects.) -/

/-- Abstract interface for `re.compile(pattern, re.IGNORECASE)`:
`none` models `re.error` on a malformed pattern, `some m` the compiled
case-insensitive matcher `m` (`m text` models `pattern.search(text)` being
truthy). -/
structure RegexEngine where
  compile : Str → Option (Str → Bool)

/-- Python `set.add` on a duplicate-free list model of a set. -/
def setAdd (v : Str) (l : List Str) : List Str := if v ∈ l then l else l ++ [v]

/-- State of `PIIDetector` (`__init__`, lines 63-73): eight sets of
creator-secret strings plus the custom-pattern set. -/
structure PIIDetector where
  creator_names : List Str
  creator_handles : List Str
  creator_locations : List Str
  creator_employers : List Str
  creator_family : List Str
  creator_phone : List Str
  creator_email : List Str
  creator_addresses : List Str
  custom_patterns : List Str
deriving DecidableEq

/-- A freshly constructed `PIIDetector()`: every set empty. -/
def PIIDetector.empty : PIIDetector := ⟨[], [], [], [], [], [], [], [], []⟩

/-- `add_creator_name` (lines 75-79): normalize with `lower().strip()`. -/
def add_creator_name (d : PIIDetector) (name : Str) : PIIDetector :=
  { d with creator_names := setAdd (pyStrip (pyLower name)) d.creator_names }

/-- `add_creator_handle` (lines 81-84): `lower().strip().lstrip('@')`. -/
def add_creator_handle (d : PIIDetector) (handle : Str) : PIIDetector :=
  { d with creator_handles := setAdd (lstripAt (pyStrip (pyLower handle))) d.creator_handles }

/-- `add_creator_location` (lines 86-89). -/
def add_creator_location (d : PIIDetector) (location : Str) : PIIDetector :=
  { d with creator_locations := setAdd (pyStrip (pyLower location)) d.creator_locations }

/-- `add_creator_employer` (lines 91-94). -/
def add_creator_employer (d : PIIDetector) (employer : Str) : PIIDetector :=
  { d with creator_employers := setAdd (pyStrip (pyLower employer)) d.creator_employers }

/-- `add_creator_family` (lines 96-99). -/
def add_creator_family (d : PIIDetector) (name : Str) : PIIDetector :=
  { d with creator_family := setAdd (pyStrip (pyLower name)) d.creator_family }

/-- `add_creator_phone` (lines 101-105): keep digits only. -/
def add_creator_phone (d : PIIDetector) (phone : Str) : PIIDetector :=
  { d with creator_phone := setAdd (digitsOnly phone) d.creator_phone }

/-- `add_creator_email` (lines 107-110). -/
def add_creator_email (d : PIIDetector) (email : Str) : PIIDetector :=
  { d with creator_email := setAdd (pyStrip (pyLower email)) d.creator_email }

/-- `add_creator_address` (lines 112-115). -/
def add_creator_address (d : PIIDetector) (address : Str) : PIIDetector :=
  { d with creator_addresses := setAdd (pyStrip (pyLower address)) d.creator_addresses }

/-- `add_custom_pattern` (lines 117-122): `try: add(re.compile(pattern,
re.IGNORECASE)) except re.error: pass`. -/
def add_custom_pattern (E : RegexEngine) (d : PIIDetector) (pattern : Str) : PIIDetector :=
  match E.compile pattern with
  | none => d
  | some _ => { d with custom_patterns := setAdd pattern d.custom_patterns }

/-- `_check_patterns` (lines 124-129): any registry pattern matches. -/
def check_patterns (text : Str) : Bool :=
  PII_PATTERNS.any (fun ent => reSearch ent.2 text)

/-- `_check_creator_pii` (lines 131-170): substring tests of each stored
secret against `text.lower()`, and of each stored phone against the
digit-only text, in the source's category order. -/
def check_creator_pii (d : PIIDetector) (text : Str) : Bool :=
  let text_lower := pyLower text
  d.creator_names.any (fun v => isSubstr v text_lower) ||
  d.creator_handles.any (fun v => isSubstr v text_lower) ||
  d.creator_locations.any (fun v => isSubstr v text_lower) ||
  d.creator_employers.any (fun v => isSubstr v text_lower) ||
  d.creator_family.any (fun v => isSubstr v text_lower) ||
  d.creator_phone.any (fun v => isSubstr v (digitsOnly text)) ||
  d.creator_email.any (fun v => isSubstr v text_lower) ||
  d.creator_addresses.any (fun v => isSubstr v text_lower)

/-- The match verdict of one stored custom pattern on `text`. -/
def customMatches (E : RegexEngine) (pattern text : Str) : Bool :=
  match E.compile pattern with
  | some m => m text
  | none => false

/-- `_check_custom_patterns` (lines 172-177). -/
def check_custom_patterns (E : RegexEngine) (d : PIIDetector) (text : Str) : Bool :=
  d.custom_patterns.any (fun p => customMatches E p text)

/-- `contains_pii` (lines 179-201): static patterns, then creator secrets,
then custom patterns, short-circuiting on the first true signal. -/
def contains_pii (E : RegexEngine) (d : PIIDetector) (text : Str) : Bool :=
  check_patterns text || check_creator_pii d text || check_custom_patterns E d text

/-- Default `placeholder` argument of `check_and_sanitize`. -/
def defaultPlaceholder : Str := "[REDACTED]".toList

/-- `check_and_sanitize` (lines 203-231): on clean text return
`(False, text)`; otherwise substitute every registry pattern, then
`str.replace` each stored name, then each stored handle, by `placeholder`.
The source method only reads detector attributes, so it is embedded as a
pure function (the detector state is unchanged by construction). -/
def check_and_sanitize (E : RegexEngine) (d : PIIDetector) (text placeholder : Str) : Bool × Str :=
  if contains_pii E d text then
    let s0 := PII_PATTERNS.foldl (fun acc ent => reSub ent.2 placeholder acc) text
    let s1 := d.creator_names.foldl (fun acc v => pyReplace acc v placeholder) s0
    let s2 := d.creator_handles.foldl (fun acc v => pyReplace acc v placeholder) s1
    (true, s2)
  else
    (false, text)

/-- `clear_all` (lines 233-243): every set is emptied. -/
def clear_all (_d : PIIDetector) : PIIDetector := PIIDetector.empty

/-- Shape of the `get_stats` dictionary (lines 245-257). -/
structure DetectorStats where
  creator_names_count : Nat
  creator_handles_count : Nat
  creator_locations_count : Nat
  creator_employers_count : Nat
  creator_family_count : Nat
  creator_phone_count : Nat
  creator_email_count : Nat
  creator_address_count : Nat
  custom_patterns_count : Nat
deriving DecidableEq

/-- `get_stats` (lines 245-257): only set sizes are exposed. -/
def get_stats (d : PIIDetector) : DetectorStats :=
  ⟨d.creator_names.length, d.creator_handles.length, d.creator_locations.length,
   d.creator_employers.length, d.creator_family.length, d.creator_phone.length,
   d.creator_email.length, d.creator_addresses.length, d.custom_patterns.length⟩

/-- `create_detector` (lines 264-266). -/
def create_detector : PIIDetector := PIIDetector.empty

/-- Python truthiness of an `Optional[str]`: `None` and `""` are falsy. -/
def pyTruthy : Option Str → Bool
  | none => false
  | some s => !s.isEmpty

/-- `create_detector_with_creator` (lines 269-297): the name is always
added; handle, location and employer only when truthy. -/
def create_detector_with_creator (name : Str) (handle location employer : Option Str) :
    PIIDetector :=
  let d0 := create_detector
  let d1 := add_creator_name d0 name
  let d2 := if pyTruthy handle then add_creator_handle d1 (handle.getD []) else d1
  let d3 := if pyTruthy location then add_creator_location d2 (location.getD []) else d2
  if pyTruthy employer then add_creator_employer d3 (employer.getD []) else d3

/-!  The safe-posting layer (`src/moltbook.py`, class `SafeMoltbookCLI` and
the `post comment` handler of `main`).  The transport client is modelled by
the `Outcome` constructors: a `postSent` or `commentSent` outcome is exactly
an outgoing network call carrying the original text, and `refused` is the
local structured rejection (no constructor, no call). -/

/-- The creator configuration mapping (optional keys, as read from the
`--creator` JSON file). -/
structure CreatorConfig where
  name : Option Str
  handle : Option Str
  location : Option Str
  employer : Option Str

/-- `SafeMoltbookCLI._create_detector` (lines 111-127): with no config,
every field defaults to the empty string; `create_detector_with_creator`
receives plain strings (`config.get(key, "")`). -/
def cli_create_detector (config : Option CreatorConfig) : PIIDetector :=
  match config with
  | none => create_detector_with_creator [] (some []) (some []) (some [])
  | some c =>
      create_detector_with_creator (c.name.getD []) (some (c.handle.getD []))
        (some (c.location.getD [])) (some (c.employer.getD []))

/-- Mutable wrapper state of `SafeMoltbookCLI` used by the posting policy. -/
structure WrapperState where
  pii_protection_enabled : Bool
  posts_blocked : Nat
  posts_allowed : Nat
deriving DecidableEq

/-- `check_content` (lines 129-149): returns
`(is_safe, message, sanitized-or-None)` and the updated counters. -/
def check_content (E : RegexEngine) (det : PIIDetector) (st : WrapperState)
    (content : Str) (field : String) : (Bool × String × Option Str) × WrapperState :=
  if !st.pii_protection_enabled then ((true, "PII protection disabled", none), st)
  else if content.isEmpty then ((true, "Empty content", none), st)
  else
    let res := check_and_sanitize E det content defaultPlaceholder
    if res.1 then
      ((false, "PII detected in " ++ field ++ " - post blocked", some res.2),
        { st with posts_blocked := st.posts_blocked + 1 })
    else
      ((true, field ++ " is safe", none),
        { st with posts_allowed := st.posts_allowed + 1 })

/-- The structured refusal payload.  `suggestion = none` models a JSON
object with no `suggestion` key. -/
structure Refusal where
  success : Bool
  error : String
  details : String
  suggestion : Option String
deriving DecidableEq

/-- Result of a content-creating operation: a local refusal, or the network
call the transport client performs with the original text. -/
inductive Outcome where
  | refused (r : Refusal)
  | postSent (submolt title content : Str) (url : Option Str)
  | commentSent (post_id content : Str) (parent : Option Str)
deriving DecidableEq

/-- `safe_post_create` (lines 151-185): check the title, then the content;
on the first failure return the structured refusal without calling the
client; otherwise send the original text. -/
def safe_post_create (E : RegexEngine) (det : PIIDetector) (st : WrapperState)
    (submolt title content : Str) (url : Option Str) : Outcome × WrapperState :=
  let tr := check_content E det st title "title"
  if !tr.1.1 then
    (Outcome.refused ⟨false, "PII Protection Blocked", tr.1.2.1,
      some "Remove personal information from title and try again"⟩, tr.2)
  else
    let cr := check_content E det tr.2 content "content"
    if !cr.1.1 then
      (Outcome.refused ⟨false, "PII Protection Blocked", cr.1.2.1,
        some "Remove personal information from content and try again"⟩, cr.2)
    else
      (Outcome.postSent submolt title content url, cr.2)

/-- The `post comment` handler of `main` (lines 322-327): one
`check_content` on the comment body; the refusal dictionary carries
`success`, `error` and `details` only (no `suggestion` key). -/
def post_comment (E : RegexEngine) (det : PIIDetector) (st : WrapperState)
    (post_id content : Str) (parent : Option Str) : Outcome × WrapperState :=
  let cr := check_content E det st content "comment"
  if !cr.1.1 then
    (Outcome.refused ⟨false, "PII Protection Blocked", cr.1.2.1, none⟩, cr.2)
  else
    (Outcome.commentSent post_id content parent, cr.2)

/-!  Concrete regex-engine instances used to evaluate the development on
concrete inputs.  `Etriv` rejects every pattern; `EngineA` models an engine
for which the source `"("` is malformed (as it is for `re.compile`, which
raises `re.error` on an unbalanced parenthesis) and every other pattern
compiles to a case-insensitive literal substring matcher. -/

/-- An engine on which every compilation fails. -/
def Etriv : RegexEngine := ⟨fun _ => none⟩

/-- An engine failing exactly on the malformed pattern `"("`, compiling any
other source to a case-insensitive substring matcher. -/
def EngineA : RegexEngine :=
  ⟨fun p => if p = "(".toList then none
    else some (fun t => isSubstr (pyLower p) (pyLower t))⟩

/-!  An inductive label for every state-mutating detector operation, used to
state the normalization invariant over arbitrary operation sequences. -/

/-- One mutating `PIIDetector` operation. -/
inductive DetOp where
  | addName (v : Str)
  | addHandle (v : Str)
  | addLocation (v : Str)
  | addEmployer (v : Str)
  | addFamily (v : Str)
  | addPhone (v : Str)
  | addEmail (v : Str)
  | addAddress (v : Str)
  | addCustom (p : Str)
  | clearOp

/-- Interpretation of a `DetOp` on the detector state. -/
def applyOp (E : RegexEngine) (d : PIIDetector) : DetOp → PIIDetector
  | .addName v => add_creator_name d v
  | .addHandle v => add_creator_handle d v
  | .addLocation v => add_creator_location d v
  | .addEmployer v => add_creator_employer d v
  | .addFamily v => add_creator_family d v
  | .addPhone v => add_creator_phone d v
  | .addEmail v => add_creator_email d v
  | .addAddress v => add_creator_address d v
  | .addCustom p => add_custom_pattern E d p
  | .clearOp => clear_all d

/-- Normalization invariant actually maintained by the mutators: the six
`lower().strip()` categories store fixpoints of case-folding plus trimming;
phones store digit-only strings; handles are case-folded, have no trailing
whitespace and never start with `'@'` (but may retain leading whitespace
uncovered by stripping a leading `'@'`, since `lstrip('@')` runs after
`strip()`). -/
structure NormalizedDet (d : PIIDetector) : Prop where
  names_norm : ∀ v ∈ d.creator_names, v = pyStrip (pyLower v)
  locations_norm : ∀ v ∈ d.creator_locations, v = pyStrip (pyLower v)
  employers_norm : ∀ v ∈ d.creator_employers, v = pyStrip (pyLower v)
  family_norm : ∀ v ∈ d.creator_family, v = pyStrip (pyLower v)
  email_norm : ∀ v ∈ d.creator_email, v = pyStrip (pyLower v)
  addresses_norm : ∀ v ∈ d.creator_addresses, v = pyStrip (pyLower v)
  phone_norm : ∀ v ∈ d.creator_phone, v = digitsOnly v
  handles_norm : ∀ v ∈ d.creator_handles,
    v = pyLower v ∧ v = stripTrail v ∧ ∀ c, v.head? = some c → c ≠ '@'

/-!  Helper lemmas.  Character-level facts about `Char.toLower` and the
whitespace class, list-level facts about `dropWhile`, `setAdd` and
`isSubstr`. -/

theorem char_ofNat_toNat_of_lt {n : Nat} (h : n < 55296) : (Char.ofNat n).toNat = n := by
  rw [Char.ofNat, dif_pos (Or.inl h)]
  rfl

theorem toLower_toNat_of_upper {c : Char} (h65 : 65 ≤ c.toNat) (h90 : c.toNat ≤ 90) :
    (Char.toLower c).toNat = c.toNat + 32 := by
  unfold Char.toLower
  rw [if_pos ⟨h65, h90⟩]
  exact char_ofNat_toNat_of_lt (by omega)

theorem toLower_of_not_upper {c : Char} (h : ¬(65 ≤ c.toNat ∧ c.toNat ≤ 90)) :
    Char.toLower c = c := by
  unfold Char.toLower
  rw [if_neg h]

theorem toLower_idem (c : Char) : Char.toLower (Char.toLower c) = Char.toLower c := by
  by_cases h : 65 ≤ c.toNat ∧ c.toNat ≤ 90
  · have h1 : (Char.toLower c).toNat = c.toNat + 32 := toLower_toNat_of_upper h.1 h.2
    exact toLower_of_not_upper (by omega)
  · rw [toLower_of_not_upper h]
    exact toLower_of_not_upper h

theorem pyIsSpace_eq_false_of_ge {c : Char} (h : 33 ≤ c.toNat) : pyIsSpace c = false := by
  simp only [pyIsSpace, Bool.or_eq_false_iff, decide_eq_false_iff_not]
  omega

theorem pyIsSpace_toLower (c : Char) : pyIsSpace (Char.toLower c) = pyIsSpace c := by
  by_cases h : 65 ≤ c.toNat ∧ c.toNat ≤ 90
  · have h1 : (Char.toLower c).toNat = c.toNat + 32 := toLower_toNat_of_upper h.1 h.2
    rw [pyIsSpace_eq_false_of_ge (by omega), pyIsSpace_eq_false_of_ge (by omega)]
  · rw [toLower_of_not_upper h]

theorem toLower_eq_at_iff (c : Char) : (Char.toLower c = '@') ↔ (c = '@') := by
  by_cases h : 65 ≤ c.toNat ∧ c.toNat ≤ 90
  · constructor
    · intro hc
      have h1 : (Char.toLower c).toNat = c.toNat + 32 := toLower_toNat_of_upper h.1 h.2
      have h2 : (Char.toLower c).toNat = 64 := by rw [hc]; rfl
      omega
    · intro hc
      subst hc
      exact absurd h (by decide)
  · rw [toLower_of_not_upper h]

theorem pyLower_idem (s : Str) : pyLower (pyLower s) = pyLower s := by
  have h : Char.toLower ∘ Char.toLower = Char.toLower := funext toLower_idem
  simp only [pyLower, List.map_map, h]

theorem stripLead_pyLower (s : Str) : stripLead (pyLower s) = pyLower (stripLead s) := by
  have h : (pyIsSpace ∘ Char.toLower) = pyIsSpace := funext pyIsSpace_toLower
  simp only [stripLead, pyLower, List.dropWhile_map, h]

theorem stripTrail_pyLower (s : Str) : stripTrail (pyLower s) = pyLower (stripTrail s) := by
  have h : (pyIsSpace ∘ Char.toLower) = pyIsSpace := funext pyIsSpace_toLower
  simp only [stripTrail, pyLower, ← List.map_reverse, List.dropWhile_map, h]

theorem pyStrip_pyLower (s : Str) : pyStrip (pyLower s) = pyLower (pyStrip s) := by
  rw [pyStrip, pyStrip, stripLead_pyLower, stripTrail_pyLower]

theorem lstripAt_pyLower (s : Str) : lstripAt (pyLower s) = pyLower (lstripAt s) := by
  have h : ((fun c => decide (c = '@')) ∘ Char.toLower) = fun c => decide (c = '@') := by
    funext c
    exact decide_eq_decide.mpr (toLower_eq_at_iff c)
  simp only [lstripAt, pyLower, List.dropWhile_map, h]

theorem dropWhile_self_idem {α : Type} (p : α → Bool) (l : List α) :
    List.dropWhile p (List.dropWhile p l) = List.dropWhile p l := by
  induction l with
  | nil => rfl
  | cons c t ih =>
    by_cases h : p c
    · rw [List.dropWhile_cons_of_pos h, ih]
    · rw [List.dropWhile_cons_of_neg h, List.dropWhile_cons_of_neg h]

theorem dropWhile_self_of_prefix {α : Type} {p : α → Bool} {l m : List α}
    (h : List.dropWhile p l = l) (hp : m <+: l) : List.dropWhile p m = m := by
  cases m with
  | nil => rfl
  | cons c t =>
    cases l with
    | nil => exact absurd (List.IsPrefix.length_le hp) (by simp)
    | cons b tb =>
      have hcb : c = b := by
        obtain ⟨r, hr⟩ := hp
        exact (List.cons.injEq c (t ++ r) b tb).mp hr |>.1
      have hpb : ¬ p b := by
        intro hb
        rw [List.dropWhile_cons_of_pos hb] at h
        have hlen := congrArg List.length h
        have hle := (List.dropWhile_sublist (l := tb) p).length_le
        simp only [List.length_cons] at hlen
        omega
      subst hcb
      exact List.dropWhile_cons_of_neg hpb

theorem head_dropWhile_ne {α : Type} {p : α → Bool} {l : List α} {c : α}
    (h : (List.dropWhile p l).head? = some c) : p c = false := by
  induction l with
  | nil => simp at h
  | cons b t ih =>
    by_cases hb : p b
    · rw [List.dropWhile_cons_of_pos hb] at h
      exact ih h
    · rw [List.dropWhile_cons_of_neg hb] at h
      simp only [List.head?_cons, Option.some.injEq] at h
      subst h
      exact Bool.eq_false_iff.mpr hb

theorem stripLead_stripLead (s : Str) : stripLead (stripLead s) = stripLead s :=
  dropWhile_self_idem pyIsSpace s

theorem stripTrail_stripTrail (s : Str) : stripTrail (stripTrail s) = stripTrail s := by
  simp only [stripTrail, List.reverse_reverse, dropWhile_self_idem]

theorem stripTrail_take_self (s : Str) : stripTrail s <+: s := by
  apply List.reverse_suffix.mp
  rw [stripTrail, List.reverse_reverse]
  exact List.dropWhile_suffix pyIsSpace

theorem stripLead_of_stripTrail_of_lead {s : Str} (h : stripLead s = s) :
    stripLead (stripTrail s) = stripTrail s :=
  dropWhile_self_of_prefix h (stripTrail_take_self s)

theorem pyStrip_idem (s : Str) : pyStrip (pyStrip s) = pyStrip s := by
  rw [pyStrip, pyStrip, stripLead_of_stripTrail_of_lead (stripLead_stripLead s),
    stripTrail_stripTrail]

theorem pyStrip_pyLower_fix (x : Str) :
    pyStrip (pyLower (pyStrip (pyLower x))) = pyStrip (pyLower x) := by
  rw [pyStrip_pyLower, pyStrip_idem, ← pyStrip_pyLower, pyLower_idem]

theorem digitsOnly_idem (s : Str) : digitsOnly (digitsOnly s) = digitsOnly s := by
  simp [digitsOnly, List.filter_filter]

theorem mem_setAdd {v x : Str} {l : List Str} : x ∈ setAdd v l ↔ x = v ∨ x ∈ l := by
  by_cases h : v ∈ l
  · rw [setAdd, if_pos h]
    constructor
    · exact Or.inr
    · rintro (rfl | hx)
      · exact h
      · exact hx
  · rw [setAdd, if_neg h]
    simp [List.mem_append, or_comm]

theorem setAdd_idem (v : Str) (l : List Str) : setAdd v (setAdd v l) = setAdd v l := by
  have h : v ∈ setAdd v l := mem_setAdd.mpr (Or.inl rfl)
  rw [setAdd, if_pos h]

theorem isSubstr_nil (h : Str) : isSubstr [] h = true := by
  cases h <;> simp [isSubstr, List.isPrefixOf]

theorem isSubstr_iff_infix {n h : Str} : isSubstr n h = true ↔ n <:+: h := by
  induction h with
  | nil =>
    simp only [isSubstr, List.isEmpty_iff, List.infix_nil]
  | cons c t ih =>
    simp only [isSubstr, Bool.or_eq_true, List.isPrefixOf_iff_prefix, ih,
      List.infix_cons_iff]

/-!  Claim theorems. -/

/-- Claim C2: for every engine, detector state and text, `contains_pii` is
true iff (a) some Pattern Registry category matches the text, or (b) some
stored creator secret is a substring of the case-folded text (for phone, a
digit-only substring of the digit-only text), or (c) some registered custom
matcher matches the text. -/
theorem C2_contains_pii_iff (E : RegexEngine) (d : PIIDetector) (text : Str) :
    contains_pii E d text = true ↔
      (∃ ent ∈ PII_PATTERNS, reSearch ent.2 text = true) ∨
      ((∃ v ∈ d.creator_names ++ d.creator_handles ++ d.creator_locations ++
          d.creator_employers ++ d.creator_family ++ d.creator_email ++
          d.creator_addresses, v <:+: pyLower text) ∨
        (∃ v ∈ d.creator_phone, v <:+: digitsOnly text)) ∨
      (∃ p ∈ d.custom_patterns, customMatches E p text = true) := by
  simp only [contains_pii, check_patterns, check_creator_pii, check_custom_patterns,
    Bool.or_eq_true, List.any_eq_true, isSubstr_iff_infix, List.mem_append,
    or_and_right, exists_or]
  itauto

/-- Claim C5: on text free of PII, `check_and_sanitize` returns the pair
`(false, text)` with the text returned unchanged, for any placeholder; the
source method only reads the detector, embedded here as a pure function, so
the detector state is unchanged. -/
theorem C5_clean_text_roundtrip (E : RegexEngine) (d : PIIDetector)
    (text placeholder : Str) (h : contains_pii E d text = false) :
    check_and_sanitize E d text placeholder = (false, text) := by
  simp [check_and_sanitize, h]

/-- Witness for C5 at a concrete clean input. -/
theorem C5_witness :
    contains_pii Etriv create_detector "hi".toList = false ∧
    check_and_sanitize Etriv create_detector "hi".toList defaultPlaceholder =
      (false, "hi".toList) :=
  ⟨by decide, C5_clean_text_roundtrip Etriv create_detector _ _ (by decide)⟩

/-- Claim C8: after `clear_all` every stats count is zero and `contains_pii`
coincides with the static Pattern Registry check alone: no previously
registered creator secret or custom pattern can still fire. -/
theorem C8_clear_resets (E : RegexEngine) (d : PIIDetector) (text : Str) :
    get_stats (clear_all d) = ⟨0, 0, 0, 0, 0, 0, 0, 0, 0⟩ ∧
    contains_pii E (clear_all d) text = check_patterns text := by
  constructor
  · rfl
  · simp [contains_pii, clear_all, check_creator_pii, check_custom_patterns,
      PIIDetector.empty]

/-- Claim C10: for any detector state and any engine, after registering the
phone `"555-123-4567"` (stored digit-only), the creator check and the full
`contains_pii` verdict are true on `"call 5551234567 now"`: both the stored
value and the input text are reduced to digits before the substring test,
so formatting differences are ignored. -/
theorem C10_phone_digit_matching (E : RegexEngine) (d : PIIDetector) :
    check_creator_pii (add_creator_phone d "555-123-4567".toList)
      "call 5551234567 now".toList = true ∧
    contains_pii E (add_creator_phone d "555-123-4567".toList)
      "call 5551234567 now".toList = true := by
  have hmem : digitsOnly "555-123-4567".toList ∈
      (add_creator_phone d "555-123-4567".toList).creator_phone :=
    mem_setAdd.mpr (Or.inl rfl)
  have hsub : isSubstr (digitsOnly "555-123-4567".toList)
      (digitsOnly "call 5551234567 now".toList) = true := by decide
  have hany : (add_creator_phone d "555-123-4567".toList).creator_phone.any
      (fun v => isSubstr v (digitsOnly "call 5551234567 now".toList)) = true :=
    List.any_eq_true.mpr ⟨digitsOnly "555-123-4567".toList, hmem, hsub⟩
  have hc : check_creator_pii (add_creator_phone d "555-123-4567".toList)
      "call 5551234567 now".toList = true := by
    simp only [check_creator_pii, hany, Bool.or_true, Bool.true_or]
  exact ⟨hc, by simp only [contains_pii, hc, Bool.or_true, Bool.true_or]⟩

/-- Counterexample to claim C6 as stated: `addCustomPattern` is listed among
the mutators whose "corresponding stats count is 1 after adding a single
value twice to an empty set", but adding the malformed pattern source `"("`
twice (a pattern on which compilation fails, as `re.compile` does) leaves
the custom-pattern count at 0, not 1. -/
theorem C6_counterexample :
    (get_stats (add_custom_pattern EngineA (add_custom_pattern EngineA create_detector
      "(".toList) "(".toList)).custom_patterns_count ≠ 1 := by decide

/-- Claim C6, amended: every `add*` mutator is idempotent on the state, and
after adding one value twice to an empty detector the corresponding count is
1 for the eight creator mutators unconditionally, and for
`add_custom_pattern` whenever the pattern compiles (a malformed pattern is a
no-op both times, leaving the count at 0). -/
theorem C6_add_idempotent :
    (∀ (d : PIIDetector) (v : Str),
      add_creator_name (add_creator_name d v) v = add_creator_name d v ∧
      add_creator_handle (add_creator_handle d v) v = add_creator_handle d v ∧
      add_creator_location (add_creator_location d v) v = add_creator_location d v ∧
      add_creator_employer (add_creator_employer d v) v = add_creator_employer d v ∧
      add_creator_family (add_creator_family d v) v = add_creator_family d v ∧
      add_creator_phone (add_creator_phone d v) v = add_creator_phone d v ∧
      add_creator_email (add_creator_email d v) v = add_creator_email d v ∧
      add_creator_address (add_creator_address d v) v = add_creator_address d v) ∧
    (∀ (E : RegexEngine) (d : PIIDetector) (p : Str),
      add_custom_pattern E (add_custom_pattern E d p) p = add_custom_pattern E d p) ∧
    (∀ v : Str,
      (get_stats (add_creator_name (add_creator_name create_detector v) v)).creator_names_count
          = 1 ∧
      (get_stats (add_creator_handle (add_creator_handle create_detector v)
          v)).creator_handles_count = 1 ∧
      (get_stats (add_creator_location (add_creator_location create_detector v)
          v)).creator_locations_count = 1 ∧
      (get_stats (add_creator_employer (add_creator_employer create_detector v)
          v)).creator_employers_count = 1 ∧
      (get_stats (add_creator_family (add_creator_family create_detector v)
          v)).creator_family_count = 1 ∧
      (get_stats (add_creator_phone (add_creator_phone create_detector v)
          v)).creator_phone_count = 1 ∧
      (get_stats (add_creator_email (add_creator_email create_detector v)
          v)).creator_email_count = 1 ∧
      (get_stats (add_creator_address (add_creator_address create_detector v)
          v)).creator_address_count = 1) ∧
    (∀ (E : RegexEngine) (p : Str) (m : Str → Bool), E.compile p = some m →
      (get_stats (add_custom_pattern E (add_custom_pattern E create_detector
        p) p)).custom_patterns_count = 1) := by
  refine ⟨?_, ?_, ?_, ?_⟩
  · intro d v
    refine ⟨?_, ?_, ?_, ?_, ?_, ?_, ?_, ?_⟩ <;>
      simp [add_creator_name, add_creator_handle, add_creator_location,
        add_creator_employer, add_creator_family, add_creator_phone,
        add_creator_email, add_creator_address, setAdd_idem]
  · intro E d p
    cases h : E.compile p with
    | none => simp [add_custom_pattern, h]
    | some m => simp [add_custom_pattern, h, setAdd_idem]
  · intro v
    refine ⟨?_, ?_, ?_, ?_, ?_, ?_, ?_, ?_⟩ <;>
      simp [add_creator_name, add_creator_handle, add_creator_location,
        add_creator_employer, add_creator_family, add_creator_phone,
        add_creator_email, add_creator_address, get_stats, setAdd,
        create_detector, PIIDetector.empty]
  · intro E p m h
    simp [add_custom_pattern, h, get_stats, setAdd, create_detector, PIIDetector.empty]

/-- Witness for the compile-success count clause of C6 at a concrete engine
and pattern. -/
theorem C6_witness :
    EngineA.compile "x".toList =
      some (fun t => isSubstr (pyLower "x".toList) (pyLower t)) ∧
    (get_stats (add_custom_pattern EngineA (add_custom_pattern EngineA create_detector
      "x".toList) "x".toList)).custom_patterns_count = 1 :=
  ⟨rfl, C6_add_idempotent.2.2.2 EngineA "x".toList _ rfl⟩

/-- Claim C7: a pattern whose compilation fails is silently ignored (the
exception is swallowed, the state and the stats are unchanged); a pattern
that compiles is registered, and afterwards the custom check fires on every
text its case-insensitive compiled matcher accepts. -/
theorem C7_custom_pattern_policy :
    (∀ (E : RegexEngine) (d : PIIDetector) (p : Str), E.compile p = none →
      add_custom_pattern E d p = d ∧
      get_stats (add_custom_pattern E d p) = get_stats d) ∧
    (∀ (E : RegexEngine) (d : PIIDetector) (p : Str) (m : Str → Bool),
      E.compile p = some m →
      (add_custom_pattern E d p).custom_patterns = setAdd p d.custom_patterns ∧
      ∀ text : Str, m text = true →
        check_custom_patterns E (add_custom_pattern E d p) text = true) := by
  constructor
  · intro E d p h
    have hd : add_custom_pattern E d p = d := by simp [add_custom_pattern, h]
    exact ⟨hd, by rw [hd]⟩
  · intro E d p m h
    constructor
    · simp [add_custom_pattern, h]
    · intro text hm
      have hmem : p ∈ (add_custom_pattern E d p).custom_patterns := by
        simp only [add_custom_pattern, h]
        exact mem_setAdd.mpr (Or.inl rfl)
      refine List.any_eq_true.mpr ⟨p, hmem, ?_⟩
      simp [customMatches, h, hm]

/-- Witness for C7: a concrete engine on which `"("` fails to compile and
`"x"` compiles to a substring matcher that accepts `"Xy"`. -/
theorem C7_witness :
    EngineA.compile "(".toList = none ∧
    add_custom_pattern EngineA create_detector "(".toList = create_detector ∧
    EngineA.compile "x".toList =
      some (fun t => isSubstr (pyLower "x".toList) (pyLower t)) ∧
    (add_custom_pattern EngineA create_detector "x".toList).custom_patterns =
      setAdd "x".toList [] ∧
    check_custom_patterns EngineA
      (add_custom_pattern EngineA create_detector "x".toList) "Xy".toList = true :=
  ⟨rfl, (C7_custom_pattern_policy.1 EngineA create_detector "(".toList rfl).1, rfl,
   (C7_custom_pattern_policy.2 EngineA create_detector "x".toList
     (fun t => isSubstr (pyLower "x".toList) (pyLower t)) rfl).1,
   (C7_custom_pattern_policy.2 EngineA create_detector "x".toList
     (fun t => isSubstr (pyLower "x".toList) (pyLower t)) rfl).2 "Xy".toList (by decide)⟩

/-- Counterexample to claim C3 as stated: the claim asserts that the CLI's
detector construction registers the empty string for name, handle, location
and employer when no creator config is supplied; in fact only the name is
registered — `create_detector_with_creator` guards handle, location and
employer with Python truthiness, so the empty strings passed for them are
skipped and those three sets stay empty. -/
theorem C3_counterexample :
    (cli_create_detector none).creator_names = [[]] ∧
    (cli_create_detector none).creator_handles = [] ∧
    (cli_create_detector none).creator_locations = [] ∧
    (cli_create_detector none).creator_employers = [] := by decide

/-- Claim C3, amended: the CLI's detector construction registers the empty
string as a creator name (only) whenever no creator config, or a config
without those keys, is supplied; and whenever the empty string is registered
as a creator name, `contains_pii` is true on every text (the empty string is
a substring of every text), including the empty text. -/
theorem C3_empty_secret_matches_everything :
    (∀ (E : RegexEngine) (d : PIIDetector) (text : Str),
      [] ∈ d.creator_names → contains_pii E d text = true) ∧
    (∀ (E : RegexEngine) (text : Str),
      contains_pii E (cli_create_detector none) text = true) ∧
    (∀ (E : RegexEngine) (text : Str),
      contains_pii E (cli_create_detector (some ⟨none, none, none, none⟩)) text = true) := by
  have key : ∀ (E : RegexEngine) (d : PIIDetector) (text : Str),
      [] ∈ d.creator_names → contains_pii E d text = true := by
    intro E d text hmem
    have hname : d.creator_names.any (fun v => isSubstr v (pyLower text)) = true :=
      List.any_eq_true.mpr ⟨[], hmem, isSubstr_nil (pyLower text)⟩
    simp only [contains_pii, check_creator_pii, hname, Bool.true_or, Bool.or_true]
  exact ⟨key, fun E text => key E _ text (by decide),
    fun E text => key E _ text (by decide)⟩

/-- Witness for C3 at the CLI's default detector and the empty text. -/
theorem C3_witness :
    [] ∈ (cli_create_detector none).creator_names ∧
    contains_pii Etriv (cli_create_detector none) [] = true :=
  ⟨by decide, C3_empty_secret_matches_everything.1 Etriv (cli_create_detector none) []
    (by decide)⟩

/-- Claim C1 is violated by the code: sanitization replaces the stored
(lower-cased) name inside the original-cased text with a case-sensitive
`str.replace`, so an occurrence of the registered creator name in any other
casing survives.  With creator name `"Jane"` (stored as `"jane"`) and input
`"Hello Jane"`, `check_and_sanitize` reports PII but returns the text
unchanged: the case-folded stored name still occurs in the case-folded
output. -/
theorem C1_sanitize_misses_cased_name :
    check_and_sanitize Etriv (add_creator_name create_detector "Jane".toList)
      "Hello Jane".toList defaultPlaceholder = (true, "Hello Jane".toList) ∧
    isSubstr (pyLower "Jane".toList)
      (pyLower (check_and_sanitize Etriv (add_creator_name create_detector "Jane".toList)
        "Hello Jane".toList defaultPlaceholder).2) = true := by decide

theorem check_content_flag (E : RegexEngine) (det : PIIDetector) (st : WrapperState)
    (content : Str) (field : String) :
    (check_content E det st content field).2.pii_protection_enabled =
      st.pii_protection_enabled := by
  simp only [check_content]
  split
  · rfl
  · split
    · rfl
    · split <;> rfl

theorem check_content_unsafe (E : RegexEngine) (det : PIIDetector) (st : WrapperState)
    (content : Str) (field : String) (hen : st.pii_protection_enabled = true)
    (hne : content ≠ []) (hpii : contains_pii E det content = true) :
    (check_content E det st content field).1 =
      (false, "PII detected in " ++ field ++ " - post blocked",
        some (check_and_sanitize E det content defaultPlaceholder).2) := by
  have hI : content.isEmpty = false := by
    cases content
    · exact absurd rfl hne
    · rfl
  have hres : (check_and_sanitize E det content defaultPlaceholder).1 = true := by
    simp [check_and_sanitize, hpii]
  simp [check_content, hen, hI, hres]

theorem check_content_safe_verdict (E : RegexEngine) (det : PIIDetector)
    (st : WrapperState) (content : Str) (field : String)
    (h : content = [] ∨ contains_pii E det content = false) :
    (check_content E det st content field).1.1 = true := by
  cases hen : st.pii_protection_enabled with
  | false => simp [check_content, hen]
  | true =>
    rcases h with rfl | hf
    · simp [check_content, hen]
    · cases hI : content.isEmpty with
      | true => simp [check_content, hen, hI]
      | false =>
        have hres : (check_and_sanitize E det content defaultPlaceholder).1 = false := by
          simp [check_and_sanitize, hf]
        simp [check_content, hen, hI, hres]

/-- Counterexample to claim C4 as stated: the claim requires every refusal
payload of a post or comment creation to carry a remediation suggestion
string, but the comment handler's refusal carries only `success`, `error`
and `details` — no `suggestion` key. -/
theorem C4_counterexample :
    (post_comment EngineA (add_creator_name create_detector "jane".toList)
      ⟨true, 0, 0⟩ "p1".toList "jane".toList none).1 =
    Outcome.refused ⟨false, "PII Protection Blocked",
      "PII detected in comment - post blocked", none⟩ := by decide

/-- Claim C4, amended: with protection enabled, a post or comment creation
whose checked nonempty field contains PII is rejected locally — no
`postSent`/`commentSent` network call is made — with a structured payload
carrying `success: false`, the error `"PII Protection Blocked"` and details
naming the failing field with a reason; the post-creation refusals
additionally carry a remediation suggestion string, while the
comment-creation refusal has no suggestion field. -/
theorem C4_pii_rejection :
    (∀ (E : RegexEngine) (det : PIIDetector) (st : WrapperState)
        (submolt title content : Str) (url : Option Str),
      st.pii_protection_enabled = true → title ≠ [] →
      contains_pii E det title = true →
      (safe_post_create E det st submolt title content url).1 =
        Outcome.refused ⟨false, "PII Protection Blocked",
          "PII detected in title - post blocked",
          some "Remove personal information from title and try again"⟩) ∧
    (∀ (E : RegexEngine) (det : PIIDetector) (st : WrapperState)
        (submolt title content : Str) (url : Option Str),
      st.pii_protection_enabled = true →
      (title = [] ∨ contains_pii E det title = false) → content ≠ [] →
      contains_pii E det content = true →
      (safe_post_create E det st submolt title content url).1 =
        Outcome.refused ⟨false, "PII Protection Blocked",
          "PII detected in content - post blocked",
          some "Remove personal information from content and try again"⟩) ∧
    (∀ (E : RegexEngine) (det : PIIDetector) (st : WrapperState)
        (post_id content : Str) (parent : Option Str),
      st.pii_protection_enabled = true → content ≠ [] →
      contains_pii E det content = true →
      (post_comment E det st post_id content parent).1 =
        Outcome.refused ⟨false, "PII Protection Blocked",
          "PII detected in comment - post blocked", none⟩) := by
  refine ⟨?_, ?_, ?_⟩
  · intro E det st submolt title content url hen hne hpii
    have htr := check_content_unsafe E det st title "title" hen hne hpii
    simp [safe_post_create, htr]
  · intro E det st submolt title content url hen hsafe hne hpii
    have hverdict := check_content_safe_verdict E det st title "title" hsafe
    have hflag : (check_content E det st title "title").2.pii_protection_enabled = true := by
      rw [check_content_flag]
      exact hen
    have hcr := check_content_unsafe E det (check_content E det st title "title").2
      content "content" hflag hne hpii
    simp [safe_post_create, hverdict, hcr]
  · intro E det st post_id content parent hen hne hpii
    have hcr := check_content_unsafe E det st content "comment" hen hne hpii
    simp [post_comment, hcr]

/-- Witness for C4 at concrete inputs: a PII title blocks a post, a PII body
blocks a post with a clean title, and a PII comment is refused without a
suggestion. -/
theorem C4_witness :
    (safe_post_create Etriv (add_creator_name create_detector "jane".toList)
      ⟨true, 0, 0⟩ "s".toList "jane".toList "ok".toList none).1 =
      Outcome.refused ⟨false, "PII Protection Blocked",
        "PII detected in title - post blocked",
        some "Remove personal information from title and try again"⟩ ∧
    (safe_post_create Etriv (add_creator_name create_detector "jane".toList)
      ⟨true, 0, 0⟩ "s".toList "ok".toList "jane".toList none).1 =
      Outcome.refused ⟨false, "PII Protection Blocked",
        "PII detected in content - post blocked",
        some "Remove personal information from content and try again"⟩ ∧
    (post_comment Etriv (add_creator_name create_detector "jane".toList)
      ⟨true, 0, 0⟩ "p2".toList "jane".toList none).1 =
      Outcome.refused ⟨false, "PII Protection Blocked",
        "PII detected in comment - post blocked", none⟩ :=
  ⟨C4_pii_rejection.1 Etriv _ _ _ _ _ none rfl (by decide) (by decide),
   C4_pii_rejection.2.1 Etriv _ _ _ _ _ none rfl (Or.inr (by decide)) (by decide) (by decide),
   C4_pii_rejection.2.2 Etriv _ _ _ _ none rfl (by decide) (by decide)⟩

theorem pyLower_pyStrip_pyLower (x : Str) :
    pyLower (pyStrip (pyLower x)) = pyStrip (pyLower x) := by
  rw [← pyStrip_pyLower, pyLower_idem]

theorem stripTrail_pyStrip (s : Str) : stripTrail (pyStrip s) = pyStrip s := by
  rw [pyStrip, stripTrail_stripTrail]

theorem stripTrail_of_suffix {l m : Str} (h : stripTrail l = l) (hs : m <:+ l) :
    stripTrail m = m := by
  have hrev : List.dropWhile pyIsSpace l.reverse = l.reverse := by
    have hc := congrArg List.reverse h
    rwa [stripTrail, List.reverse_reverse] at hc
  have hpref : m.reverse <+: l.reverse := List.reverse_prefix.mpr hs
  have hm : List.dropWhile pyIsSpace m.reverse = m.reverse :=
    dropWhile_self_of_prefix hrev hpref
  rw [stripTrail, hm, List.reverse_reverse]

theorem handle_lower_fix (x : Str) :
    pyLower (lstripAt (pyStrip (pyLower x))) = lstripAt (pyStrip (pyLower x)) := by
  rw [← lstripAt_pyLower, pyLower_pyStrip_pyLower]

theorem handle_trail_fix (x : Str) :
    stripTrail (lstripAt (pyStrip (pyLower x))) = lstripAt (pyStrip (pyLower x)) :=
  stripTrail_of_suffix (stripTrail_pyStrip (pyLower x))
    (List.dropWhile_suffix (fun c => c = '@'))

theorem handle_head_ne_at (x : Str) :
    ∀ c, (lstripAt (pyStrip (pyLower x))).head? = some c → c ≠ '@' := by
  intro c h
  have hb : (fun b => decide (b = '@')) c = false :=
    head_dropWhile_ne (p := fun b => decide (b = '@')) h
  simpa using hb

theorem normalizedDet_empty : NormalizedDet create_detector := by
  constructor <;> simp [create_detector, PIIDetector.empty]

theorem normalizedDet_applyOp (E : RegexEngine) (d : PIIDetector) (op : DetOp)
    (hd : NormalizedDet d) : NormalizedDet (applyOp E d op) := by
  cases op with
  | addName v =>
    refine ⟨?_, hd.locations_norm, hd.employers_norm, hd.family_norm, hd.email_norm,
      hd.addresses_norm, hd.phone_norm, hd.handles_norm⟩
    intro u hu
    rcases mem_setAdd.mp hu with rfl | hu
    · exact (pyStrip_pyLower_fix v).symm
    · exact hd.names_norm u hu
  | addHandle v =>
    refine ⟨hd.names_norm, hd.locations_norm, hd.employers_norm, hd.family_norm,
      hd.email_norm, hd.addresses_norm, hd.phone_norm, ?_⟩
    intro u hu
    rcases mem_setAdd.mp hu with rfl | hu
    · exact ⟨(handle_lower_fix v).symm, (handle_trail_fix v).symm, handle_head_ne_at v⟩
    · exact hd.handles_norm u hu
  | addLocation v =>
    refine ⟨hd.names_norm, ?_, hd.employers_norm, hd.family_norm, hd.email_norm,
      hd.addresses_norm, hd.phone_norm, hd.handles_norm⟩
    intro u hu
    rcases mem_setAdd.mp hu with rfl | hu
    · exact (pyStrip_pyLower_fix v).symm
    · exact hd.locations_norm u hu
  | addEmployer v =>
    refine ⟨hd.names_norm, hd.locations_norm, ?_, hd.family_norm, hd.email_norm,
      hd.addresses_norm, hd.phone_norm, hd.handles_norm⟩
    intro u hu
    rcases mem_setAdd.mp hu with rfl | hu
    · exact (pyStrip_pyLower_fix v).symm
    · exact hd.employers_norm u hu
  | addFamily v =>
    refine ⟨hd.names_norm, hd.locations_norm, hd.employers_norm, ?_, hd.email_norm,
      hd.addresses_norm, hd.phone_norm, hd.handles_norm⟩
    intro u hu
    rcases mem_setAdd.mp hu with rfl | hu
    · exact (pyStrip_pyLower_fix v).symm
    · exact hd.family_norm u hu
  | addPhone v =>
    refine ⟨hd.names_norm, hd.locations_norm, hd.employers_norm, hd.family_norm,
      hd.email_norm, hd.addresses_norm, ?_, hd.handles_norm⟩
    intro u hu
    rcases mem_setAdd.mp hu with rfl | hu
    · exact (digitsOnly_idem v).symm
    · exact hd.phone_norm u hu
  | addEmail v =>
    refine ⟨hd.names_norm, hd.locations_norm, hd.employers_norm, hd.family_norm,
      ?_, hd.addresses_norm, hd.phone_norm, hd.handles_norm⟩
    intro u hu
    rcases mem_setAdd.mp hu with rfl | hu
    · exact (pyStrip_pyLower_fix v).symm
    · exact hd.email_norm u hu
  | addAddress v =>
    refine ⟨hd.names_norm, hd.locations_norm, hd.employers_norm, hd.family_norm,
      hd.email_norm, ?_, hd.phone_norm, hd.handles_norm⟩
    intro u hu
    rcases mem_setAdd.mp hu with rfl | hu
    · exact (pyStrip_pyLower_fix v).symm
    · exact hd.addresses_norm u hu
  | addCustom p =>
    cases h : E.compile p with
    | none =>
      simp only [applyOp, add_custom_pattern, h]
      exact hd
    | some m =>
      simp only [applyOp, add_custom_pattern, h]
      exact ⟨hd.names_norm, hd.locations_norm, hd.employers_norm, hd.family_norm,
        hd.email_norm, hd.addresses_norm, hd.phone_norm, hd.handles_norm⟩
  | clearOp => exact normalizedDet_empty

theorem normalizedDet_foldl (E : RegexEngine) (ops : List DetOp) (d : PIIDetector)
    (hd : NormalizedDet d) : NormalizedDet (ops.foldl (applyOp E) d) := by
  induction ops generalizing d with
  | nil => exact hd
  | cons op rest ih => exact ih (applyOp E d op) (normalizedDet_applyOp E d op hd)

/-- Counterexample to claim C9 as stated: `add_creator_handle "@ bob"`
stores `" bob"` (the `strip()` runs before `lstrip('@')`, so removing the
`'@'` uncovers leading whitespace), and `" bob"` is not equal to its own
case-folded, whitespace-trimmed form. -/
theorem C9_counterexample :
    (add_creator_handle create_detector "@ bob".toList).creator_handles =
      [" bob".toList] ∧
    pyStrip (pyLower " bob".toList) ≠ " bob".toList := by decide

/-- Claim C9, amended: after any sequence of detector operations, every
stored name, location, employer, family, email and address value is a
fixpoint of case-folding plus whitespace-trimming, every stored phone value
is digit-only, and every stored handle is case-folded, has no trailing
whitespace and does not start with `'@'` (it may retain leading whitespace
uncovered by stripping a leading `'@'`, because `strip()` runs before
`lstrip('@')`). -/
theorem C9_normalization_invariant (E : RegexEngine) (ops : List DetOp) :
    NormalizedDet (ops.foldl (applyOp E) create_detector) :=
  normalizedDet_foldl E ops create_detector normalizedDet_empty
